import Mathlib

/-!
# Verification of the trpc-webrtc request-correlation core

Shallow embedding of the caller-side multiplexer (`createDataChannelClient`
in `src/data-channel-link.ts`) and the responder-side dispatch engine
(`applyDataChannelHandler` / `parseMessage` in `src/data-channel-handler.ts`),
with theorems settling the frozen claims about the natural-language spec.

JavaScript values reaching the envelope codec are modelled by `JsValue`;
machine state mutation is modelled by explicit state passing, and callback
invocations / sends / channel closes by explicit event lists.
-/

namespace TrpcWebrtc

/-- A JavaScript value as seen by the envelope codec (`unknown` in the
source).  `nan` is the NaN number (typeof "number", `isNaN` true); `undefined`
is `undefined` (the result of reading an absent object field). -/
inductive JsValue where
  | null
  | bool (b : Bool)
  | num (n : Int)
  | nan
  | str (s : String)
  | arr (xs : List JsValue)
  | obj (fields : List (String × JsValue))
  | undefined
deriving Repr

/-- `typeof v === "object"` (true for null, arrays and plain objects). -/
def typeofIsObject : JsValue → Bool
  | .null => true
  | .arr _ => true
  | .obj _ => true
  | _ => false

/-- `typeof v === "number"`. -/
def typeofIsNumber : JsValue → Bool
  | .num _ => true
  | .nan => true
  | _ => false

/-- `typeof v === "string"`. -/
def typeofIsString : JsValue → Bool
  | .str _ => true
  | _ => false

/-- `Array.isArray v`. -/
def isArray : JsValue → Bool
  | .arr _ => true
  | _ => false

/-- JS truthiness restricted to what `assertIsObject` tests: `!obj`. -/
def isFalsy : JsValue → Bool
  | .null => true
  | .undefined => true
  | .bool b => !b
  | .num n => n == 0
  | .nan => true
  | .str s => s.isEmpty
  | _ => false

/-- The global `isNaN` as the source applies it: only ever reached under a
preceding `typeof obj === "number"` conjunct, so the string/undefined
coercion cases of the global function are unreachable and irrelevant. -/
def isNaNjs : JsValue → Bool
  | .nan => true
  | _ => false

/-- `v === null` (strict equality against the null literal). -/
def isNull : JsValue → Bool
  | .null => true
  | _ => false

/-- `v === s` for a string literal `s`: true iff `v` is that string. -/
def strEq (v : JsValue) (s : String) : Bool :=
  match v with
  | .str t => t == s
  | _ => false

/-- `typeof v === "undefined"`. -/
def typeofIsUndefined : JsValue → Bool
  | .undefined => true
  | _ => false

/-- Reading field `k` of a JS object: absent fields read as `undefined`. -/
def getField (fields : List (String × JsValue)) (k : String) : JsValue :=
  match fields.lookup k with
  | some v => v
  | none => .undefined

/-- `assertIsObject` from `data-channel-handler.ts`: throws unless the value
is a non-null, non-array object; returns its fields on success. -/
def assertIsObject (v : JsValue) : Except String (List (String × JsValue)) :=
  if !typeofIsObject v || isArray v || isFalsy v then .error "Not an object"
  else match v with
    | .obj fs => .ok fs
    | _ => .error "Not an object"

/-- tRPC procedure types. -/
inductive ProcType where
  | query
  | mutation
  | subscription
deriving DecidableEq, Repr

/-- `assertIsProcedureType`: the method must be the string "query",
"subscription" or "mutation". -/
def assertIsProcedureType (v : JsValue) : Except String ProcType :=
  match v with
  | .str "query" => .ok .query
  | .str "subscription" => .ok .subscription
  | .str "mutation" => .ok .mutation
  | _ => .error "Invalid procedure type"

/-- `assertIsRequestId` from `data-channel-handler.ts`, embedded with its
exact conjunction: it throws only when the value is non-null AND of typeof
"number" AND NaN AND not of typeof "string" — i.e. only for the NaN
number. -/
def assertIsRequestId (v : JsValue) : Except String Unit :=
  if !isNull v && typeofIsNumber v && isNaNjs v && !typeofIsString v then
    .error "Invalid request id"
  else .ok ()

/-- `assertIsString`. -/
def assertIsString (v : JsValue) : Except String String :=
  match v with
  | .str s => .ok s
  | _ => .error "Invalid string"

/-- `assertIsJSONRPC2OrUndefined`: the `jsonrpc` field must be absent
(undefined) or the string "2.0". -/
def assertIsJSONRPC2OrUndefined (v : JsValue) : Except String Unit :=
  if typeofIsUndefined v || strEq v "2.0" then .ok () else .error "Must be JSONRPC 2.0"

/-- The result of `parseMessage`: either a `subscription.stop` cancel
envelope or a request envelope.  The id is kept as the raw `JsValue` the
codec accepted (the TypeScript assertion narrows the static type but does
not change the runtime value). -/
inductive ParsedMsg where
  | stop (id : JsValue) (jsonrpc : JsValue)
  | req (id : JsValue) (jsonrpc : JsValue) (t : ProcType) (path : String) (input : JsValue)
deriving Repr

/-- The id of a parsed envelope. -/
def ParsedMsg.msgId : ParsedMsg → JsValue
  | .stop i _ => i
  | .req i _ _ _ _ => i

/-- `parseMessage(obj, transformer)` from `data-channel-handler.ts`.
`deser` is the external transformer's `input.deserialize`. -/
def parseMessage (deser : JsValue → JsValue) (v : JsValue) : Except String ParsedMsg := do
  let fs ← assertIsObject v
  let method := getField fs "method"
  let params := getField fs "params"
  let id := getField fs "id"
  let jsonrpc := getField fs "jsonrpc"
  let _ ← assertIsRequestId id
  let _ ← assertIsJSONRPC2OrUndefined jsonrpc
  if strEq method "subscription.stop" then
    return .stop id jsonrpc
  let t ← assertIsProcedureType method
  let pfs ← assertIsObject params
  let rawInput := getField pfs "input"
  let path := getField pfs "path"
  let pathS ← assertIsString path
  return .req id jsonrpc t pathS (deser rawInput)

/-! ## Responder dispatch engine (`applyDataChannelHandler`) -/

/-- tRPC error codes appearing in the responder. -/
inductive ErrCode where
  | PARSE_ERROR
  | BAD_REQUEST
  | INTERNAL_SERVER_ERROR
  | other (s : String)
deriving DecidableEq, Repr

/-- What `callProcedure` produced for one request: a plain value, an
observable (identified by the token its `subscribe` call yields), or a
thrown error. -/
inductive CallResult where
  | value (v : JsValue)
  | stream (h : Nat)
  | err (e : ErrCode)
deriving Repr

/-- Payload of a `data` response: either a serialized value or the raw
observable object (the degenerate non-subscription-returning-observable
path sends the procedure result as-is). -/
inductive ProcData where
  | value (v : JsValue)
  | observable (h : Nat)
deriving Repr

/-- `result` variants of an outgoing response envelope. -/
inductive RResult where
  | data (d : ProcData)
  | started
  | stopped
deriving Repr

/-- An outgoing response envelope from the responder (`respond` argument):
either a `result` envelope or an `error` envelope; `id` is `.null` for
unsolicited responses. -/
inductive RespOut where
  | result (id : JsValue) (r : RResult)
  | error (id : JsValue) (code : ErrCode)
deriving Repr

/-- Observable side effects of the responder, in program order:
a `respond` (send on the data channel), an `unsubscribe` of a stream
handle, or an invocation of the external `onError` observer. -/
inductive REvent where
  | respond (r : RespOut)
  | unsub (h : Nat)
  | errHook (e : ErrCode)
deriving Repr

/-- The `clientSubscriptions` map: request id (SameValueZero key) to the
subscription handle. -/
def Registry := List (JsValue × Nat)

/-- JS `Map` key equality (SameValueZero) for the ids that reach the
registry.  For primitives this is value equality (NaN equal to itself);
object and array keys compare by reference, and since every parsed
envelope allocates fresh objects two such keys are never identical —
modelled as never equal. -/
def keyEq : JsValue → JsValue → Bool
  | .null, .null => true
  | .bool a, .bool b => a == b
  | .num a, .num b => a == b
  | .nan, .nan => true
  | .str a, .str b => a == b
  | .undefined, .undefined => true
  | _, _ => false

/-- `clientSubscriptions.get id`. -/
def Registry.get (r : Registry) (id : JsValue) : Option Nat :=
  match r with
  | [] => none
  | (k, h) :: rest => if keyEq k id then some h else Registry.get rest id

/-- `clientSubscriptions.delete id`. -/
def Registry.del (r : Registry) (id : JsValue) : Registry :=
  match r with
  | [] => []
  | (k, h) :: rest => if keyEq k id then rest else (k, h) :: Registry.del rest id

/-- `clientSubscriptions.set id h` (replace in place or append). -/
def Registry.set (r : Registry) (id : JsValue) (h : Nat) : Registry :=
  match r with
  | [] => [(id, h)]
  | (k, h0) :: rest =>
      if keyEq k id then (k, h) :: rest else (k, h0) :: Registry.set rest id h

/-- `stopSubscription(sub, {id, jsonrpc})`: unsubscribe, then respond with
a `stopped` result. -/
def stopSubscription (h : Nat) (id : JsValue) : List REvent :=
  [.unsub h, .respond (.result id .stopped)]

/-- `handleRequest(msg)` from `applyDataChannelHandler`, embedded over one
parsed envelope.  `ctx` is the outcome of awaiting the context promise
(`.ok` when context resolution succeeded); `call` is what the external
`callProcedure` collaborator returns for this request; `ready` is
`dataChannel.readyState`.  The returned `Except` is `.error` exactly when
the function throws out of its own try/catch (only the null-id guard,
which sits before the try block); otherwise it yields the updated
`clientSubscriptions` registry and the emitted events in order. -/
def handleRequest (ctx : Except ErrCode Unit) (call : CallResult)
    (ready : String) (subs : Registry) (msg : ParsedMsg) :
    Except ErrCode (Registry × List REvent) :=
  if isNull msg.msgId then .error .BAD_REQUEST
  else match msg with
  | .stop id _ =>
    match subs.get id with
    | some h => .ok (subs.del id, stopSubscription h id)
    | none => .ok (subs.del id, [])
  | .req id _ t _ _ =>
    match ctx with
    | .error e => .ok (subs, [.errHook e, .respond (.error id e)])
    | .ok _ =>
      match call with
      | .err e => .ok (subs, [.errHook e, .respond (.error id e)])
      | .value v =>
        if t = .subscription then
          -- `isObservable(result)` is false: the thrown INTERNAL_SERVER_ERROR
          -- is caught by the surrounding catch and reported per-request
          .ok (subs, [.errHook .INTERNAL_SERVER_ERROR,
                      .respond (.error id .INTERNAL_SERVER_ERROR)])
        else
          .ok (subs, [.respond (.result id (.data (.value v)))])
      | .stream h =>
        if t ≠ .subscription then
          .ok (subs, [.respond (.result id (.data (.observable h)))])
        else
          if ready ≠ "open" then
            .ok (subs, [.unsub h])
          else if (subs.get id).isSome then
            -- duplicate id: stop the new subscription, then the thrown
            -- BAD_REQUEST is caught and reported as an error envelope
            .ok (subs, stopSubscription h id ++
                       [.errHook .BAD_REQUEST, .respond (.error id .BAD_REQUEST)])
          else
            .ok (subs.set id h, [.respond (.result id .started)])

/-- The sub-messages of one incoming frame: an array frame is its
elements, any other JSON value is a singleton batch. -/
def frameMsgs : JsValue → List JsValue
  | .arr xs => xs
  | v => [v]

/-- `msgs.map((raw) => parseMessage(raw, transformer))` — `Array.map`
with a throwing callback: it aborts at the first failing element, so it
yields all parsed envelopes only when every element parses. -/
def parseAll (deser : JsValue → JsValue) : List JsValue → Except String (List ParsedMsg)
  | [] => .ok []
  | m :: ms => do
    let p ← parseMessage deser m
    let ps ← parseAll deser ms
    return p :: ps

/-- The responder message listener up to the point where parsed envelopes
are handed to `handleRequest`: on any parse failure the catch block emits
one unsolicited `PARSE_ERROR` response (id null) and nothing is handed
over; otherwise every parsed envelope is handed over and no event is
emitted by this stage. -/
def onMessageResponder (deser : JsValue → JsValue) (frame : JsValue) :
    List ParsedMsg × List REvent :=
  match parseAll deser (frameMsgs frame) with
  | .error _ => ([], [.respond (.error .null .PARSE_ERROR)])
  | .ok parsed => (parsed, [])

/-! ## Caller-side multiplexer (`createDataChannelClient`) -/

/-- A request id as carried by operations and response envelopes:
a JS number or string (`null` is represented by `Option RId` where it can
occur). -/
inductive RId where
  | num (n : Int)
  | str (s : String)
deriving DecidableEq, Repr

/-- The string a JS record coerces a `number | string` property key to. -/
def RId.key : RId → String
  | .num n => toString n
  | .str s => s

/-- An entry of the `outgoing` buffer (`TRPCClientOutgoingMessage`):
a request envelope or a `subscription.stop` cancel envelope. -/
inductive OutMsg where
  | request (id : RId) (t : ProcType) (path : String) (input : JsValue)
  | stop (id : RId)
deriving Repr

/-- The id of an outgoing envelope (compared with strict `!==`, i.e.
type-and-value equality on `number | string`). -/
def OutMsg.outId : OutMsg → RId
  | .request i _ _ _ => i
  | .stop i => i

/-- Strict equality of outgoing-envelope ids. -/
def ridEq (a b : RId) : Bool := a = b

/-- A frame handed to `activeConnection.send`: one unwrapped envelope or a
JSON array of envelopes. -/
inductive Frame where
  | single (m : OutMsg)
  | batch (ms : List OutMsg)
deriving Repr

/-- A `pendingRequests` entry (`TRequest`): the data-channel instance the
request was made to (a token naming the channel object), the procedure
type, and the operation's id (the part of `op` the cancel closure uses).
The callback set itself is external; its invocations are events. -/
structure TReq where
  channel : Nat
  type : ProcType
  opId : RId
deriving Repr

/-- `state` of the caller multiplexer. -/
inductive LinkState where
  | connecting
  | open_
  | closed
deriving DecidableEq, Repr

/-- The mutable state of one `createDataChannelClient` closure.  `dcReady`
is `activeConnection.readyState` (string-valued, as in the DOM API);
`dcToken` is the identity of the closure's `dataChannel`; `activeToken` is
the identity of `activeConnection` (the program assigns it once, to
`dataChannel`, and never reassigns it, but both are kept so the identity
comparisons in the source are embedded as written). -/
structure CallerState where
  outgoing : List OutMsg
  pending : List (String × TReq)
  dispatchTimer : Bool
  state : LinkState
  dcReady : String
  dcToken : Nat
  activeToken : Nat
deriving Repr

/-- An incoming response envelope on the caller (`TRPCResponseMessage`):
a `result` envelope carrying one of the three result types, or an `error`
envelope; `id` is `none` for null. -/
inductive RespIn where
  | res (id : Option RId) (r : RResult)
  | err (id : Option RId) (code : ErrCode)
deriving Repr

/-- The id of an incoming response envelope. -/
def RespIn.inId : RespIn → Option RId
  | .res i _ => i
  | .err i _ => i

/-- `"result" in data && data.result.type === "stopped"`. -/
def RespIn.isStopped : RespIn → Bool
  | .res _ .stopped => true
  | _ => false

/-- Observable side effects of the caller multiplexer, in program order:
callback invocations on the pending request stored under a record key,
the channel-close call of `closeIfNoPending`, and a frame send. -/
inductive CEvent where
  | next (key : String) (d : RespIn)
  | complete (key : String)
  | error (key : String) (msg : String)
  | closeChannel (c : Nat)
  | send (f : Frame)
deriving Repr

/-- `pendingRequests[k]` (JS record lookup by coerced string key). -/
def recordGet (r : List (String × TReq)) (k : String) : Option TReq :=
  match r with
  | [] => none
  | (k0, v) :: rest => if k0 = k then some v else recordGet rest k

/-- `delete pendingRequests[k]`. -/
def recordDel (r : List (String × TReq)) (k : String) : List (String × TReq) :=
  match r with
  | [] => []
  | (k0, v) :: rest => if k0 = k then rest else (k0, v) :: recordDel rest k

/-- `pendingRequests[k] = v` (replace in place or append). -/
def recordSet (r : List (String × TReq)) (k : String) (v : TReq) :
    List (String × TReq) :=
  match r with
  | [] => [(k, v)]
  | (k0, v0) :: rest =>
      if k0 = k then (k0, v) :: rest else (k0, v0) :: recordSet rest k v

/-- `dispatch()`: schedules the deferred flush unless the link is not open
or a timer is already pending.  The timer body is `fireTimer` below. -/
def dispatchStep (st : CallerState) : CallerState :=
  if st.state ≠ .open_ ∨ st.dispatchTimer then st
  else { st with dispatchTimer := true }

/-- The body of the deferred-flush `setTimeout` callback: clear the timer
flag; if the channel is not open keep the queue for later; otherwise send
one envelope unwrapped when exactly one is queued, else the whole queue as
one array frame, and clear the queue. -/
def fireTimer (st : CallerState) : CallerState × Option Frame :=
  let st := { st with dispatchTimer := false }
  if st.dcReady ≠ "open" then (st, none)
  else match st.outgoing with
    | [m] => ({ st with outgoing := [] }, some (.single m))
    | ms => ({ st with outgoing := [] }, some (.batch ms))

/-- `closeIfNoPending(conn)`: close `conn` when no pending request is
bound to it. -/
def closeIfNoPending (conn : Nat) (st : CallerState) : List CEvent :=
  if st.pending.any (fun p => p.2.channel == conn) then [] else [.closeChannel conn]

/-- `handleIncomingResponse(data)`: look up the pending request by the
response id (a null id or a miss is silently ignored); invoke
`callbacks.next`; rebind the request to the active connection when its
channel is stale; on a `stopped` result (with this channel active) invoke
`callbacks.complete`.  The entry is not deleted here. -/
def handleIncomingResponse (d : RespIn) (st : CallerState) :
    CallerState × List CEvent :=
  match d.inId with
  | none => (st, [])
  | some i =>
    let key := i.key
    match recordGet st.pending key with
    | none => (st, [])
    | some req =>
      let evs := [CEvent.next key d]
      let (st, evs) :=
        if req.channel ≠ st.activeToken ∧ st.dcToken = st.activeToken then
          let oldWs := req.channel
          let req := { req with channel := st.activeToken }
          let st := { st with pending := recordSet st.pending key req }
          (st, evs ++ closeIfNoPending oldWs st)
        else (st, evs)
      if d.isStopped ∧ st.dcToken = st.activeToken then
        (st, evs ++ [CEvent.complete key])
      else (st, evs)

/-- `handleIncomingRequest(req)`: the only unsolicited request method is
`reconnect`; a data channel cannot be reconnected, so when this channel is
active and the link open the multiplexer closes it once nothing is
pending. -/
def handleIncomingRequest (st : CallerState) : List CEvent :=
  if st.dcToken = st.activeToken then
    if st.state = .open_ then closeIfNoPending st.dcToken st else []
  else []

/-- An incoming message on the caller channel, already JSON-parsed:
`"method" in msg` distinguishes an unsolicited request (reconnect notice)
from a response envelope. -/
inductive InMsg where
  | reconnect
  | resp (d : RespIn)
deriving Repr

/-- The caller's `message` listener: dispatch by shape, then, when this
channel is stale or the link closed, close it if nothing is pending. -/
def callerOnMessage (m : InMsg) (st : CallerState) : CallerState × List CEvent :=
  let (st, evs) :=
    match m with
    | .reconnect => (st, handleIncomingRequest st)
    | .resp d => handleIncomingResponse d st
  if st.dcToken ≠ st.activeToken ∨ st.state = .closed then
    (st, evs ++ closeIfNoPending st.dcToken st)
  else (st, evs)

/-- The loop body of the caller's `close` listener over a snapshot of the
pending entries: entries bound to other channels are kept; entries bound
to this channel are removed and completed (link closed deliberately) or
errored (premature closure). -/
def closeLoop (s : LinkState) (dc : Nat) :
    List (String × TReq) → List (String × TReq) × List CEvent
  | [] => ([], [])
  | (k, r) :: rest =>
    if r.channel ≠ dc then
      let (p, e) := closeLoop s dc rest
      ((k, r) :: p, e)
    else if s = .closed then
      let (p, e) := closeLoop s dc rest
      (p, CEvent.complete k :: e)
    else
      let (p, e) := closeLoop s dc rest
      (p, CEvent.error k "DataChannel closed prematurely" :: e)

/-- The caller's `close` listener on the bound data channel. -/
def onCloseHandler (st : CallerState) : CallerState × List CEvent :=
  let (p, e) := closeLoop st.state st.dcToken st.pending
  ({ st with pending := p }, e)

/-- `request(op, callbacks)` up to returning the cancel closure: insert
the pending entry bound to the active connection, enqueue the request
envelope, trigger the deferred flush. -/
def requestFn (id : RId) (t : ProcType) (path : String) (input : JsValue)
    (st : CallerState) : CallerState :=
  let st := { st with
    pending := recordSet st.pending id.key ⟨st.activeToken, t, id⟩ }
  let st := { st with outgoing := st.outgoing ++ [OutMsg.request id t path input] }
  dispatchStep st

/-- The cancellation closure `request` returns, for the operation with id
`opId` and type `t`: read the entry's callbacks, delete the entry, filter
the outgoing queue by strict id inequality, invoke `complete` when
callbacks were found, and for an open channel and a subscription enqueue a
`subscription.stop` envelope and trigger a flush. -/
def cancelFn (opId : RId) (t : ProcType) (st : CallerState) :
    CallerState × List CEvent :=
  let key := opId.key
  let cbs := recordGet st.pending key
  let st := { st with pending := recordDel st.pending key }
  let st := { st with outgoing := st.outgoing.filter (fun m => !(ridEq m.outId opId)) }
  let evs := match cbs with
    | some _ => [CEvent.complete key]
    | none => []
  if st.dcReady = "open" ∧ t = .subscription then
    let st := { st with outgoing := st.outgoing ++ [OutMsg.stop opId] }
    (dispatchStep st, evs)
  else (st, evs)

/-- The returned `close()` method: mark the link closed and close the
active connection once nothing is pending on it. -/
def closeFn (st : CallerState) : CallerState × List CEvent :=
  let st := { st with state := .closed }
  (st, closeIfNoPending st.activeToken st)

/-! ## Concrete fixtures used by counterexamples and witnesses -/

/-- Whether an `Except` computation succeeded. -/
def exIsOk {ε α : Type} : Except ε α → Bool
  | .ok _ => true
  | .error _ => false

/-- A well-formed query envelope (id "1", path "p"). -/
def goodMsg : JsValue :=
  .obj [("id", .str "1"), ("method", .str "query"),
        ("params", .obj [("path", .str "p"), ("input", .null)])]

/-- A malformed envelope: its method is not a recognized procedure type. -/
def badMsg : JsValue := .obj [("id", .str "2"), ("method", .str "bogus")]

/-- An envelope whose id is the boolean `true` — not a string, number or
null. -/
def boolIdMsg : JsValue :=
  .obj [("id", .bool true), ("method", .str "query"),
        ("params", .obj [("path", .str "x"), ("input", .null)])]

/-- An envelope whose id is the NaN number. -/
def nanIdMsg : JsValue :=
  .obj [("id", .nan), ("method", .str "query"),
        ("params", .obj [("path", .str "x"), ("input", .null)])]

/-- A caller state with one pending subscription (id "1") bound to the
active channel, open link, open channel, empty queue. -/
def stPending : CallerState :=
  ⟨[], [("1", ⟨0, .subscription, .str "1"⟩)], false, .open_, "open", 0, 0⟩

/-- A caller state whose link has been closed by `close()` while one
query (id "1") bound to the active channel is still pending. -/
def stClosedPending : CallerState :=
  ⟨[], [("1", ⟨0, .query, .str "1"⟩)], false, .closed, "open", 0, 0⟩

/-! ## Helper lemmas -/

theorem parseAll_error_of_mem {deser : JsValue → JsValue} {l : List JsValue}
    (h : ∃ m ∈ l, exIsOk (parseMessage deser m) = false) :
    ∃ e, parseAll deser l = .error e := by
  induction l with
  | nil => rcases h with ⟨m, hm, _⟩; cases hm
  | cons x xs ih =>
    rcases h with ⟨m, hm, hbad⟩
    rcases List.mem_cons.mp hm with rfl | hmem
    · cases hp : parseMessage deser m with
      | error e =>
        exact ⟨e, by simp [parseAll, hp, Bind.bind, Except.bind]⟩
      | ok p => rw [hp] at hbad; simp [exIsOk] at hbad
    · cases hp : parseMessage deser x with
      | error e =>
        exact ⟨e, by simp [parseAll, hp, Bind.bind, Except.bind]⟩
      | ok p =>
        rcases ih ⟨m, hmem, hbad⟩ with ⟨e, he⟩
        exact ⟨e, by simp [parseAll, hp, he, Bind.bind, Except.bind]⟩

theorem closeLoop_eq (s : LinkState) (dc : Nat) (l : List (String × TReq)) :
    closeLoop s dc l =
      (l.filter (fun p => p.2.channel != dc),
       (l.filter (fun p => p.2.channel == dc)).map
         (fun p => if s = .closed then CEvent.complete p.1
                   else CEvent.error p.1 "DataChannel closed prematurely")) := by
  induction l with
  | nil => rfl
  | cons x xs ih =>
    obtain ⟨k, r⟩ := x
    unfold closeLoop
    rw [ih]
    by_cases hc : r.channel = dc
    · by_cases hs : s = .closed <;> simp [hc, hs]
    · simp [hc]

theorem stop_not_mem_filtered (l : List OutMsg) (opId : RId) :
    OutMsg.stop opId ∉ l.filter (fun m => !(ridEq m.outId opId)) := by
  intro hmem
  have h := (List.mem_filter.mp hmem).2
  simp [ridEq, OutMsg.outId] at h

theorem dispatchStep_fields (st : CallerState) :
    (dispatchStep st).outgoing = st.outgoing ∧
    (dispatchStep st).pending = st.pending := by
  unfold dispatchStep
  split <;> exact ⟨rfl, rfl⟩

theorem hir_preserves (d : RespIn) (st : CallerState) :
    (handleIncomingResponse d st).1.state = st.state ∧
    (handleIncomingResponse d st).1.dcToken = st.dcToken ∧
    (handleIncomingResponse d st).1.activeToken = st.activeToken := by
  unfold handleIncomingResponse
  cases d.inId with
  | none => exact ⟨rfl, rfl, rfl⟩
  | some i =>
    simp only
    cases hreq : recordGet st.pending i.key with
    | none => exact ⟨rfl, rfl, rfl⟩
    | some req =>
      simp only
      split <;> split <;> exact ⟨rfl, rfl, rfl⟩

/-! ## Claim theorems -/

/-- Claim C9 (code bug): the spec says `parseMessage` accepts an envelope
only if its id is a string, a number or null.  The code accepts the
boolean id `true` — `assertIsRequestId`'s conjunction only throws for the
NaN number — while NaN ids, unrecognized methods and non-object params
are indeed rejected. -/
theorem parseMessage_accepts_bool_id :
    parseMessage (fun v => v) boolIdMsg =
      .ok (.req (.bool true) .undefined .query "x" .null) ∧
    exIsOk (parseMessage (fun v => v) nanIdMsg) = false ∧
    exIsOk (parseMessage (fun v => v) badMsg) = false :=
  ⟨rfl, rfl, rfl⟩

/-- Claim C10: an incoming response whose id is null or matches no entry
of the request table is silently ignored — no callback fires and the
whole caller state (request table and outgoing queue included) is
unchanged. -/
theorem unmatched_response_ignored (st : CallerState) (d : RespIn)
    (h : d.inId = none ∨
         ∃ i, d.inId = some i ∧ recordGet st.pending i.key = none) :
    handleIncomingResponse d st = (st, []) := by
  unfold handleIncomingResponse
  rcases h with h | ⟨i, hi, hmiss⟩
  · rw [h]
  · rw [hi]
    simp only
    rw [hmiss]

/-- Witness for claim C10, at a null-id error report and at an unmatched
id. -/
theorem unmatched_response_ignored_witness :
    handleIncomingResponse (.err none .PARSE_ERROR) stPending = (stPending, []) ∧
    handleIncomingResponse (.res (some (.str "9")) .stopped) stPending = (stPending, []) := by
  constructor
  · exact unmatched_response_ignored stPending _ (Or.inl rfl)
  · exact unmatched_response_ignored stPending _ (Or.inr ⟨.str "9", rfl, rfl⟩)

/-- Claim C2 counterexample: after a `stopped` response for pending id "1",
`callbacks.next` and `callbacks.complete` are invoked but the entry is
still present in the request table — `handleIncomingResponse` never
deletes it, contradicting the claimed removal. -/
theorem stopped_response_retains_entry_cex :
    (handleIncomingResponse (.res (some (.str "1")) .stopped) stPending).2 =
      [.next "1" (.res (some (.str "1")) .stopped), .complete "1"] ∧
    recordGet
      (handleIncomingResponse (.res (some (.str "1")) .stopped) stPending).1.pending
      "1" = some ⟨0, .subscription, .str "1"⟩ :=
  ⟨rfl, rfl⟩

/-- Claim C2 (amended): on a response matching a pending request bound to
the active connection, `callbacks.next` is invoked, and `callbacks.complete`
is additionally invoked exactly when the result type is `stopped`; the
pending entry is NOT removed from the request table by the response
handler (removal happens only when the cancellation function runs, as the
link layer's teardown does after `complete`). -/
theorem handleIncomingResponse_stopped_spec (st : CallerState) (d : RespIn)
    (i : RId) (req : TReq)
    (hid : d.inId = some i) (hreq : recordGet st.pending i.key = some req)
    (hown : req.channel = st.activeToken) (hdc : st.dcToken = st.activeToken) :
    handleIncomingResponse d st =
      (st, [CEvent.next i.key d] ++
        if d.isStopped then [CEvent.complete i.key] else []) := by
  unfold handleIncomingResponse
  rw [hid]
  simp only
  rw [hreq]
  simp [hown, hdc]
  split <;> simp

/-- Witness for claim C2's amended theorem, at a concrete `stopped`
response. -/
theorem handleIncomingResponse_stopped_spec_witness :
    handleIncomingResponse (.res (some (.str "1")) .stopped) stPending =
      (stPending, [.next "1" (.res (some (.str "1")) .stopped), .complete "1"]) := by
  have h := handleIncomingResponse_stopped_spec stPending
    (.res (some (.str "1")) .stopped) (.str "1") ⟨0, .subscription, .str "1"⟩
    rfl rfl rfl rfl
  simpa using h

/-- Claim C1 counterexample: in the batch `[goodMsg, badMsg]` the first
member is well-formed (it parses), yet when the second member fails
envelope parsing NOT ONE sub-message is handed to `handleRequest` — the
single unsolicited PARSE_ERROR response is all that happens, contradicting
the claim that the well-formed members are still processed. -/
theorem batch_member_parse_failure_cex :
    onMessageResponder (fun v => v) (.arr [goodMsg, badMsg]) =
      ([], [.respond (.error .null .PARSE_ERROR)]) ∧
    exIsOk (parseMessage (fun v => v) goodMsg) = true :=
  ⟨rfl, rfl⟩

/-- Claim C1 (amended): if any sub-message of an incoming batch frame
fails envelope parsing, the responder emits exactly one unsolicited
PARSE_ERROR response (id null) and hands no sub-message of that batch —
well-formed members included — to request handling: the eager
`msgs.map(parseMessage)` throws before the handler map runs. -/
theorem batch_parse_failure_aborts_batch (deser : JsValue → JsValue)
    (frame : JsValue)
    (h : ∃ m ∈ frameMsgs frame, exIsOk (parseMessage deser m) = false) :
    onMessageResponder deser frame = ([], [.respond (.error .null .PARSE_ERROR)]) := by
  rcases parseAll_error_of_mem h with ⟨e, he⟩
  unfold onMessageResponder
  rw [he]

/-- Witness for claim C1's amended theorem, at the concrete two-member
batch. -/
theorem batch_parse_failure_aborts_batch_witness :
    onMessageResponder (fun v => v) (.arr [goodMsg, badMsg]) =
      ([], [.respond (.error .null .PARSE_ERROR)]) :=
  batch_parse_failure_aborts_batch _ _ ⟨badMsg, by simp [frameMsgs], rfl⟩

/-- Claim C3: for a subscription request whose operation yielded a stream,
with the channel open — if the id already has a registry entry, the newly
created subscription is unsubscribed, a `stopped` response is emitted for
it, and a BAD_REQUEST duplicate-id error response follows, with the
registry unchanged; the subscription is registered and `started` emitted
only when the id is not already present. -/
theorem duplicate_subscription_id_spec (subs : Registry) (id jsonrpc : JsValue)
    (path : String) (input : JsValue) (h : Nat) (hnn : isNull id = false) :
    ((subs.get id).isSome = true →
      handleRequest (.ok ()) (.stream h) "open" subs
          (.req id jsonrpc .subscription path input) =
        .ok (subs, [.unsub h, .respond (.result id .stopped),
                    .errHook .BAD_REQUEST, .respond (.error id .BAD_REQUEST)])) ∧
    (subs.get id = none →
      handleRequest (.ok ()) (.stream h) "open" subs
          (.req id jsonrpc .subscription path input) =
        .ok (subs.set id h, [.respond (.result id .started)])) := by
  constructor <;> intro hx <;>
    simp [handleRequest, ParsedMsg.msgId, hnn, stopSubscription, hx]

/-- Witness for claim C3, at a one-entry registry (duplicate case) and at
an empty registry (fresh case). -/
theorem duplicate_subscription_id_spec_witness :
    handleRequest (.ok ()) (.stream 7) "open" ([(.str "1", 3)] : Registry)
        (.req (.str "1") .undefined .subscription "p" .null) =
      .ok (([(.str "1", 3)] : Registry),
           [.unsub 7, .respond (.result (.str "1") .stopped),
            .errHook .BAD_REQUEST, .respond (.error (.str "1") .BAD_REQUEST)]) ∧
    handleRequest (.ok ()) (.stream 7) "open" ([] : Registry)
        (.req (.str "1") .undefined .subscription "p" .null) =
      .ok (([(.str "1", 7)] : Registry),
           [.respond (.result (.str "1") .started)]) := by
  constructor
  · exact (duplicate_subscription_id_spec [(.str "1", 3)] (.str "1") .undefined
      "p" .null 7 rfl).1 rfl
  · exact (duplicate_subscription_id_spec [] (.str "1") .undefined
      "p" .null 7 rfl).2 rfl

/-- Claim C4: when the bound transport's close event fires, every pending
request owned by that transport is removed; each gets `callbacks.complete()`
when the link state is closed (caller-initiated shutdown) and otherwise
`callbacks.error()` with the "DataChannel closed prematurely" error — none
is silently dropped, and requests owned by other transports are kept. -/
theorem close_listener_spec (st : CallerState) :
    onCloseHandler st =
      ({ st with pending := st.pending.filter (fun p => p.2.channel != st.dcToken) },
       (st.pending.filter (fun p => p.2.channel == st.dcToken)).map
         (fun p => if st.state = .closed then CEvent.complete p.1
                   else CEvent.error p.1 "DataChannel closed prematurely")) := by
  unfold onCloseHandler
  rw [closeLoop_eq]

/-- Claim C5 counterexample: cancel a pending subscription (enqueueing a
subscription.stop), let the flush send it (queue becomes empty), then call
the cancellation function a second time: the second call enqueues another
subscription.stop envelope — a state change and an additional cancel
envelope, so it is not a no-op (it does invoke no callbacks). -/
theorem double_cancel_cex :
    (fireTimer (cancelFn (.str "1") .subscription stPending).1).1.outgoing = [] ∧
    (cancelFn (.str "1") .subscription
        (fireTimer (cancelFn (.str "1") .subscription stPending).1).1).1.outgoing =
      [OutMsg.stop (.str "1")] ∧
    (cancelFn (.str "1") .subscription
        (fireTimer (cancelFn (.str "1") .subscription stPending).1).1).2 = [] :=
  ⟨rfl, rfl, rfl⟩

/-- Claim C5 (amended): a repeat call to the cancellation function (the
pending entry is gone) invokes no callbacks and deletes nothing from the
request table, but it is not a no-op: when the operation kind is
subscription and the transport is open it removes any still-queued
envelope with that id and enqueues a fresh subscription.stop cancel
envelope. -/
theorem second_cancel_spec (st : CallerState) (opId : RId) (t : ProcType)
    (h : recordGet st.pending opId.key = none) :
    (cancelFn opId t st).2 = [] ∧
    (cancelFn opId t st).1.pending = recordDel st.pending opId.key ∧
    (cancelFn opId t st).1.outgoing =
      st.outgoing.filter (fun m => !(ridEq m.outId opId)) ++
        (if st.dcReady = "open" ∧ t = .subscription then [OutMsg.stop opId] else []) := by
  simp only [cancelFn, h]
  split
  · refine ⟨rfl, ?_, ?_⟩
    · rw [(dispatchStep_fields _).2]
    · rw [(dispatchStep_fields _).1]
  · rename_i hcond
    simp [hcond]

/-- Witness for claim C5's amended theorem: the state reached after the
counterexample's first cancel and flush. -/
theorem second_cancel_spec_witness :
    (cancelFn (.str "1") .subscription
        (fireTimer (cancelFn (.str "1") .subscription stPending).1).1).2 = [] ∧
    (cancelFn (.str "1") .subscription
        (fireTimer (cancelFn (.str "1") .subscription stPending).1).1).1.outgoing =
      [OutMsg.stop (.str "1")] := by
  have h := second_cancel_spec
    (fireTimer (cancelFn (.str "1") .subscription stPending).1).1
    (.str "1") .subscription rfl
  exact ⟨h.1, by rw [h.2.2]; rfl⟩

/-- Claim C6: the first call to the cancellation function removes the
pending entry, filters every not-yet-sent envelope with that id out of
the outgoing queue, invokes `callbacks.complete()`, and appends a
subscription.stop cancel envelope if and only if the operation kind is
subscription and the transport is open. -/
theorem first_cancel_spec (st : CallerState) (opId : RId) (t : ProcType)
    (h : (recordGet st.pending opId.key).isSome = true) :
    (cancelFn opId t st).2 = [CEvent.complete opId.key] ∧
    (cancelFn opId t st).1.pending = recordDel st.pending opId.key ∧
    (cancelFn opId t st).1.outgoing =
      st.outgoing.filter (fun m => !(ridEq m.outId opId)) ++
        (if st.dcReady = "open" ∧ t = .subscription then [OutMsg.stop opId] else []) ∧
    (OutMsg.stop opId ∈ (cancelFn opId t st).1.outgoing ↔
      (st.dcReady = "open" ∧ t = .subscription)) := by
  obtain ⟨req, hreq⟩ := Option.isSome_iff_exists.mp h
  have hout : (cancelFn opId t st).1.outgoing =
      st.outgoing.filter (fun m => !(ridEq m.outId opId)) ++
        (if st.dcReady = "open" ∧ t = .subscription then [OutMsg.stop opId] else []) := by
    simp only [cancelFn, hreq]
    split
    · rw [(dispatchStep_fields _).1]
    · rename_i hcond
      simp [hcond]
  refine ⟨?_, ?_, hout, ?_⟩
  · simp only [cancelFn, hreq]
    split <;> rfl
  · simp only [cancelFn, hreq]
    split
    · rw [(dispatchStep_fields _).2]
    · rfl
  · rw [hout]
    constructor
    · intro hmem
      rcases List.mem_append.mp hmem with hmem | hmem
      · exact absurd hmem (stop_not_mem_filtered _ _)
      · by_contra hcond
        rw [if_neg hcond] at hmem
        cases hmem
    · intro hcond
      rw [if_pos hcond]
      exact List.mem_append_right _ (List.mem_singleton.mpr rfl)

/-- Witness for claim C6, at a pending subscription with an open channel:
complete is invoked, the entry is removed, and the stop envelope is
enqueued. -/
theorem first_cancel_spec_witness :
    (cancelFn (.str "1") .subscription stPending).2 = [CEvent.complete "1"] ∧
    (cancelFn (.str "1") .subscription stPending).1.pending = [] ∧
    OutMsg.stop (.str "1") ∈ (cancelFn (.str "1") .subscription stPending).1.outgoing := by
  have h := first_cancel_spec stPending (.str "1") .subscription rfl
  exact ⟨h.1, h.2.1, h.2.2.2.mpr ⟨rfl, rfl⟩⟩

/-- Claim C7 counterexample: the link is closed (`close()` already ran)
and exactly one pending request is bound to the active transport; the
caller then cancels it, draining the table — yet no channel close is
triggered: the cancellation function never re-checks the "no pending →
close the transport" condition, contradicting the claimed mechanism. -/
theorem cancel_does_not_close_cex :
    (cancelFn (.str "1") .query stClosedPending).1.pending = [] ∧
    (cancelFn (.str "1") .query stClosedPending).2 = [CEvent.complete "1"] :=
  ⟨rfl, rfl⟩

/-- Claim C7 (amended): `close()` sets the link state to closed and closes
the active transport immediately exactly when no pending request is bound
to it; otherwise the transport is closed only when a later incoming
message is processed while the link is closed and leaves no pending
request bound to this channel — a cancellation never emits the channel
close, so draining by cancellation alone does not close the transport. -/
theorem close_drain_spec :
    (∀ st : CallerState, (closeFn st).1.state = .closed ∧
      (closeFn st).2 =
        (if st.pending.any (fun p => p.2.channel == st.activeToken) then []
         else [CEvent.closeChannel st.activeToken])) ∧
    (∀ (st : CallerState) (opId : RId) (t : ProcType) (c : Nat),
      CEvent.closeChannel c ∉ (cancelFn opId t st).2) ∧
    (∀ (st : CallerState) (m : InMsg), st.state = .closed →
      (callerOnMessage m st).1.pending.any (fun p => p.2.channel == st.dcToken) = false →
      CEvent.closeChannel st.dcToken ∈ (callerOnMessage m st).2) := by
  refine ⟨?_, ?_, ?_⟩
  · intro st
    exact ⟨rfl, rfl⟩
  · intro st opId t c
    simp only [cancelFn]
    cases hcb : recordGet st.pending opId.key <;>
      · simp only [hcb]
        split <;> simp
  · intro st m hclosed hnone
    cases m with
    | reconnect =>
      have hcond : st.dcToken ≠ st.activeToken ∨ st.state = .closed := Or.inr hclosed
      simp only [callerOnMessage, if_pos hcond] at hnone ⊢
      simp [closeIfNoPending, hnone]
    | resp d =>
      rcases hsp : handleIncomingResponse d st with ⟨stt, evs⟩
      have hpres := hir_preserves d st
      rw [hsp] at hpres
      simp only at hpres
      have hcond : stt.dcToken ≠ stt.activeToken ∨ stt.state = .closed :=
        Or.inr (hpres.1.trans hclosed)
      simp only [callerOnMessage, hsp, if_pos hcond] at hnone ⊢
      rw [hpres.2.1]
      simp [closeIfNoPending, hnone]

/-- Witness for claim C7's amended theorem: applying the close-on-message
re-check at a closed link with an empty table, and the close-immediately
case of `close()`. -/
theorem close_drain_spec_witness :
    CEvent.closeChannel 0 ∈
      (callerOnMessage (.resp (.err none .PARSE_ERROR))
        ⟨[], [], false, .closed, "open", 0, 0⟩).2 ∧
    (closeFn ⟨[], [], false, .open_, "open", 0, 0⟩).2 = [CEvent.closeChannel 0] := by
  constructor
  · exact close_drain_spec.2.2 ⟨[], [], false, .closed, "open", 0, 0⟩
      (.resp (.err none .PARSE_ERROR)) rfl rfl
  · exact (close_drain_spec.1 ⟨[], [], false, .open_, "open", 0, 0⟩).2

/-- Claim C8: when the deferred flush timer fires with the channel open,
exactly one queued envelope is sent unwrapped as a single object frame;
more than one are sent as one array frame preserving enqueue order; after
a send the queue is empty; when the channel is not open nothing is sent
and the queue is retained unchanged. -/
theorem flush_timer_spec (st : CallerState) :
    (∀ m, st.dcReady = "open" → st.outgoing = [m] →
      fireTimer st =
        ({ st with dispatchTimer := false, outgoing := [] }, some (.single m))) ∧
    (st.dcReady = "open" → 1 < st.outgoing.length →
      fireTimer st =
        ({ st with dispatchTimer := false, outgoing := [] },
         some (.batch st.outgoing))) ∧
    (st.dcReady ≠ "open" →
      fireTimer st = ({ st with dispatchTimer := false }, none)) := by
  refine ⟨?_, ?_, ?_⟩
  · intro m hopen hone
    simp [fireTimer, hopen, hone]
  · intro hopen hlen
    rcases houg : st.outgoing with _ | ⟨a, _ | ⟨b, rest⟩⟩
    · rw [houg] at hlen; simp at hlen
    · rw [houg] at hlen; simp at hlen
    · rw [← houg]
      simp only [fireTimer, hopen]
      rw [houg]
      simp
  · intro hne
    simp [fireTimer, hne]

/-- Witness for claim C8, at a one-envelope queue, a two-envelope queue
and a not-open channel. -/
theorem flush_timer_spec_witness :
    fireTimer ⟨[OutMsg.stop (.str "1")], [], true, .open_, "open", 0, 0⟩ =
      (⟨[], [], false, .open_, "open", 0, 0⟩, some (.single (OutMsg.stop (.str "1")))) ∧
    fireTimer ⟨[OutMsg.stop (.str "1"), OutMsg.stop (.str "2")], [], true, .open_, "open", 0, 0⟩ =
      (⟨[], [], false, .open_, "open", 0, 0⟩,
       some (.batch [OutMsg.stop (.str "1"), OutMsg.stop (.str "2")])) ∧
    fireTimer ⟨[OutMsg.stop (.str "1")], [], true, .open_, "connecting", 0, 0⟩ =
      (⟨[OutMsg.stop (.str "1")], [], false, .open_, "connecting", 0, 0⟩, none) := by
  refine ⟨?_, ?_, ?_⟩
  · exact (flush_timer_spec _).1 (OutMsg.stop (.str "1")) rfl rfl
  · exact (flush_timer_spec _).2.1 rfl (by decide)
  · exact (flush_timer_spec _).2.2 (by decide)

end TrpcWebrtc
